import Mathlib

/-!
# RideWise reservation client — verified model

A shallow embedding of the reservation/pricing core of the RideWise
frontend (`src/pages/Reservation.tsx`, `src/contexts/ReservationContext.tsx`,
`src/components/dashboard/LeafletMap.tsx`), together with proofs about it.

Modelling conventions:
* Runtime JavaScript strings are `String`; an unset/empty form field is `""`
  (JavaScript falsiness of the empty string is checked explicitly where the
  source checks truthiness).
* `JSON.stringify` / `JSON.parse` are modelled on the fragment that the
  snapshot store actually exercises: whitespace-free flat objects whose
  values are strings (without control characters) or unsigned integers.
  This covers every serialized `LatestReservation` as well as the corrupt
  inputs examined by the theorems.
* React state updates are modelled as pure state-passing; `useEffect`
  dependency arrays are modelled by remembering the dependency tuple the
  effect last ran with and re-running the effect exactly when it differs.
-/

/-! ## Pricing (Reservation.tsx, `calculatePrice`, lines 40-45)

The source compares the `demand` and `timeSlot` arguments against string
literals with `===`; any other runtime string falls through to the 200 tier
and to a zero surcharge, so the function is modelled over arbitrary strings.
-/

def calculatePrice (demand : String) (timeSlot : String) : Nat :=
  let demandPrice := if demand = "High" then 400 else if demand = "Medium" then 300 else 200
  let nightSurcharge := if timeSlot = "Night" then 100 else 0
  demandPrice + nightSurcharge

/-- The `DemandLevel` union type of the source (`"High" | "Medium" | "Low"`). -/
inductive DemandLevel
  | High
  | Medium
  | Low
deriving DecidableEq

/-- The `TimeSlot` union type of the source
(`"Morning" | "Afternoon" | "Evening" | "Night"`). -/
inductive TimeSlot
  | Morning
  | Afternoon
  | Evening
  | Night
deriving DecidableEq

/-- The runtime string carried by a `DemandLevel` literal. -/
def DemandLevel.toName : DemandLevel → String
  | .High => "High"
  | .Medium => "Medium"
  | .Low => "Low"

/-- The runtime string carried by a `TimeSlot` literal. -/
def TimeSlot.toName : TimeSlot → String
  | .Morning => "Morning"
  | .Afternoon => "Afternoon"
  | .Evening => "Evening"
  | .Night => "Night"

/-- The per-tier base price named by the spec (Low = 200, Medium = 300,
High = 400). -/
def basePrice : DemandLevel → Nat
  | .Low => 200
  | .Medium => 300
  | .High => 400

/-! ## JSON fragment used by the snapshot store

`ReservationContext.tsx` persists the latest reservation with
`JSON.stringify` and rehydrates it with `JSON.parse` inside `try/catch`.
The values crossing this boundary are flat objects of string and unsigned
integer fields, so the model implements printing and parsing for exactly
that fragment, at the `List Char` level.
-/

/-- A JSON leaf value of the fragment: a string or an unsigned integer. -/
inductive JVal
  | str (s : String)
  | num (n : Nat)
deriving DecidableEq

/-- A flat JSON object: an ordered field list (JavaScript objects preserve
insertion order, which is what `JSON.stringify` serializes). -/
def JObject := List (String × JVal)

instance : DecidableEq JObject := by
  unfold JObject
  infer_instance

/-- String-body escaping done by `JSON.stringify`: a double quote or a
backslash is preceded by a backslash.  Control characters (which
`JSON.stringify` would escape as a Unicode escape) are outside the model;
well-formedness of snapshots excludes them. -/
def escapeChars : List Char → List Char
  | [] => []
  | c :: cs =>
    if c = '"' ∨ c = '\\' then '\\' :: c :: escapeChars cs
    else c :: escapeChars cs

/-- Printed JSON string literal: quote, escaped body, quote. -/
def printStrLit (s : String) : List Char :=
  '"' :: (escapeChars s.data ++ ['"'])

/-- The character for a decimal digit value. -/
def digitChar (d : Nat) : Char := Char.ofNat (48 + d)

/-- The digit value of a decimal digit character. -/
def digitVal (c : Char) : Nat := c.toNat - 48

/-- Least-significant-first decimal digits of `n`, with explicit fuel
(`fuel ≥ n` suffices). -/
def natDigitsRev : Nat → Nat → List Nat
  | 0, _ => []
  | fuel + 1, n => if n = 0 then [] else n % 10 :: natDigitsRev fuel (n / 10)

/-- Printed JSON integer literal (most significant digit first). -/
def printNatLit (n : Nat) : List Char :=
  if n = 0 then ['0'] else ((natDigitsRev n n).reverse).map digitChar

/-- Printed JSON leaf value. -/
def printJVal : JVal → List Char
  | .str s => printStrLit s
  | .num n => printNatLit n

/-- Printed body of a flat object: everything after the opening brace,
including the closing brace. -/
def printFieldsBody : JObject → List Char
  | [] => ['}']
  | (k, v) :: fs =>
    printStrLit k ++ ':' :: printJVal v ++
      (match fs with
       | [] => ['}']
       | _ :: _ => ',' :: printFieldsBody fs)

/-- Printed flat object. -/
def printJsonTop (fs : JObject) : List Char :=
  '{' :: printFieldsBody fs

/-- Parse the body of a JSON string literal (the opening quote already
consumed), undoing `escapeChars`; `acc` holds the body read so far,
reversed. -/
def parseStrAux : List Char → List Char → Option (List Char × List Char)
  | [], _ => none
  | c :: cs, acc =>
    if c = '"' then some (acc.reverse, cs)
    else if c = '\\' then
      match cs with
      | [] => none
      | d :: cs2 => if d = '"' ∨ d = '\\' then parseStrAux cs2 (d :: acc) else none
    else parseStrAux cs (c :: acc)

/-- Accumulate decimal digits from the front of the input. -/
def parseNatAux : List Char → Nat → Nat × List Char
  | [], acc => (acc, [])
  | c :: cs, acc =>
    if c.isDigit then parseNatAux cs (acc * 10 + digitVal c) else (acc, c :: cs)

/-- Parse a JSON integer literal (at least one digit required). -/
def parseNatLit : List Char → Option (Nat × List Char)
  | [] => none
  | c :: cs => if c.isDigit then some (parseNatAux (c :: cs) 0) else none

/-- Parse a JSON leaf value of the fragment. -/
def parseJVal (input : List Char) : Option (JVal × List Char) :=
  match input with
  | [] => none
  | c :: cs =>
    if c = '"' then
      match parseStrAux cs [] with
      | some (s, rest) => some (.str (String.mk s), rest)
      | none => none
    else if c.isDigit then
      match parseNatLit (c :: cs) with
      | some (n, rest) => some (.num n, rest)
      | none => none
    else none

/-- Parse one `"key":value` field. -/
def parseField (input : List Char) : Option ((String × JVal) × List Char) :=
  match input with
  | [] => none
  | c :: cs =>
    if c = '"' then
      match parseStrAux cs [] with
      | some (k, r1) =>
        match r1 with
        | ':' :: r2 =>
          match parseJVal r2 with
          | some (v, r3) => some ((String.mk k, v), r3)
          | none => none
        | _ => none
      | none => none
    else none

/-- Parse an object body (the opening brace already consumed) up to and
including the closing brace.  Fuel bounds the number of fields. -/
def parseObjBody : Nat → List Char → Option (JObject × List Char)
  | 0, _ => none
  | fuel + 1, input =>
    match input with
    | [] => none
    | c :: cs =>
      if c = '}' then some ([], cs)
      else
        match parseField (c :: cs) with
        | some (kv, r) =>
          match r with
          | ',' :: r2 =>
            match parseObjBody fuel r2 with
            | some (fs, r3) => some (kv :: fs, r3)
            | none => none
          | '}' :: r2 => some ([kv], r2)
          | _ => none
        | none => none

/-- Parse a complete flat JSON object; the whole input must be consumed
(`JSON.parse` rejects trailing garbage). -/
def parseJsonTop (input : List Char) : Option JObject :=
  match input with
  | [] => none
  | c :: cs =>
    if c = '{' then
      match parseObjBody (cs.length + 1) cs with
      | some (fs, []) => some fs
      | _ => none
    else none

/-! ## Latest-reservation snapshot (ReservationContext.tsx)

`LatestReservation` mirrors the interface of the source (lines 3-13).
`status` is declared there as the literal type `"Confirmed"`, but runtime
values are unchecked strings copied from server responses, so the field is
modelled as `String` (see the C2 theorem).  The two optional fields are
`Option String`. -/

structure LatestReservation where
  reservation_id : String
  station : String
  date : String
  time_slot : String
  price : Nat
  status : String
  predicted_demand : Option String
  station_id : Option String
deriving DecidableEq

/-- The JSON object that `JSON.stringify` sees for a snapshot: the fields in
the insertion order of the object literal built in `handleReserve`, with an
optional field omitted when it is `undefined` (exactly what
`JSON.stringify` does). -/
def encodeLatest (r : LatestReservation) : JObject :=
  [("reservation_id", JVal.str r.reservation_id),
   ("station", JVal.str r.station),
   ("date", JVal.str r.date),
   ("time_slot", JVal.str r.time_slot),
   ("price", JVal.num r.price),
   ("status", JVal.str r.status)]
  ++ (match r.predicted_demand with
      | some pd => [("predicted_demand", JVal.str pd)]
      | none => [])
  ++ (match r.station_id with
      | some sid => [("station_id", JVal.str sid)]
      | none => [])

/-- First field of the object with the given key (JavaScript property
lookup on the parsed object). -/
def jget : JObject → String → Option JVal
  | [], _ => none
  | (k, v) :: fs, key => if k = key then some v else jget fs key

/-- Read a string-valued property. -/
def getStr (fs : JObject) (key : String) : Option String :=
  match jget fs key with
  | some (.str s) => some s
  | _ => none

/-- Read an integer-valued property. -/
def getNat (fs : JObject) (key : String) : Option Nat :=
  match jget fs key with
  | some (.num n) => some n
  | _ => none

/-- Reading the snapshot fields back out of a parsed JSON object, i.e. what
consumers of the hydrated value (property accesses on a
`LatestReservation`) observe.  It witnesses that `encodeLatest` loses no
information. -/
def decodeLatestJson (fs : JObject) : Option LatestReservation := do
  let rid ← getStr fs "reservation_id"
  let st ← getStr fs "station"
  let d ← getStr fs "date"
  let ts ← getStr fs "time_slot"
  let p ← getNat fs "price"
  let stat ← getStr fs "status"
  pure { reservation_id := rid, station := st, date := d, time_slot := ts,
         price := p, status := stat,
         predicted_demand := getStr fs "predicted_demand",
         station_id := getStr fs "station_id" }

/-- `JSON.stringify` of a snapshot, as written to
`localStorage["ridewise_latest_reservation"]`. -/
def serializeLatest (r : LatestReservation) : String :=
  String.mk (printJsonTop (encodeLatest r))

/-- State of the `ReservationProvider` store: the in-memory React state and
the durable `localStorage` slot under `STORAGE_KEY`.  In-memory values are
represented by their JSON trees (faithful for the flat string/integer
objects the store holds; `encodeLatest` is proved lossless). -/
structure StoreState where
  memory : Option JObject
  slot : Option String

/-- `setLatestReservation` (ReservationContext.tsx lines 44-52): updates the
in-memory state unconditionally, then best-effort writes (or removes) the
durable slot; `storageOk = false` models a thrown storage failure, which the
source swallows. -/
def setLatestReservation (st : StoreState) (r : Option LatestReservation)
    (storageOk : Bool) : StoreState :=
  match r with
  | some x =>
    { memory := some (encodeLatest x),
      slot := if storageOk then some (serializeLatest x) else st.slot }
  | none =>
    { memory := none,
      slot := if storageOk then none else st.slot }

/-- Reading the store (`latestReservation` via `useReservation`): every
reader attached to the context observes this value. -/
def readLatest (st : StoreState) : Option JObject := st.memory

/-- The mount-time hydration effect of `ReservationProvider` (lines 35-42):
`localStorage.getItem` then, if the raw value is truthy, `JSON.parse`
inside `try/catch` — a missing slot, an empty string, or a parse error all
leave the state `null`.  A successful parse is stored verbatim, with no
shape validation. -/
def hydrate (slot : Option String) : Option JObject :=
  match slot with
  | none => none
  | some raw =>
    if raw.data.isEmpty then none
    else match parseJsonTop raw.data with
      | some v => some v
      | none => none

/-- The store as observed by the first read after a fresh process startup
whose durable slot holds `slot`. -/
def startupStore (slot : Option String) : StoreState :=
  { memory := hydrate slot, slot := slot }

/-! ## Reservation lifecycle controller (Reservation.tsx) -/

/-- The request body of `POST /api/reserve` built in `handleReserve`
(lines 265-271). -/
structure ReserveRequest where
  date : String
  time_slot : String
  station_id : String
  predicted_demand : String
  user_email : Option String
deriving DecidableEq

/-- The server's reserve response record.  Its TypeScript declaration
(`ReserveResponse`) is not among the provided sources; the field shape is
the `POST /api/reserve` contract of the spec
(`{reservation_id, station, date, time_slot, price, status}`), and at
runtime every field is whatever JSON the server sent — in particular
`status` is an arbitrary string. -/
structure ReserveResponse where
  reservation_id : String
  station : String
  date : String
  time_slot : String
  price : Nat
  status : String
deriving DecidableEq

/-- The snapshot `handleReserve` passes to `setLatestReservation` on a
successful reserve (lines 284-294): server-confirmed fields are copied
verbatim from the response — including `status` — and the two optional
fields come from the form state. -/
def latestFromResponse (confirmed : ReserveResponse)
    (predictedDemand stationId : String) : LatestReservation :=
  { reservation_id := confirmed.reservation_id,
    station := confirmed.station,
    date := confirmed.date,
    time_slot := confirmed.time_slot,
    price := confirmed.price,
    status := confirmed.status,
    predicted_demand := some predictedDemand,
    station_id := some stationId }

/-- Outcome of the pre-network part of `handleReserve`: either a local
validation error (the source sets `submitError` and returns before any
`fetch`) or the request that is submitted. -/
inductive ReserveAttempt
  | validationError (msg : String)
  | request (body : ReserveRequest)
deriving DecidableEq

/-- The validation prefix of `handleReserve` (lines 244-258): the three
required fields are checked for JavaScript truthiness in order, and the
first empty one aborts the attempt with its field-specific message. -/
def handleReserveValidate (date timeSlot stationId predictedDemand : String)
    (userEmail : Option String) : ReserveAttempt :=
  if date = "" then .validationError "Please select a date."
  else if timeSlot = "" then .validationError "Please select a time slot."
  else if stationId = "" then .validationError "Please select a pickup station."
  else .request { date := date, time_slot := timeSlot, station_id := stationId,
                  predicted_demand := predictedDemand, user_email := userEmail }

/-- The `Station` interface of Reservation.tsx (lines 19-26).  The
coordinates are floating point in the source and irrelevant to every
verified claim; they are carried as integers. -/
structure Station where
  station_id : String
  station_name : String
  lat : Int
  lng : Int
  available_bikes : Nat
  demand_level : String
deriving DecidableEq

/-- Station-catalog state held by `ReservationPage` (lines 60-62):
`stations`, `stationsError`, `stationsLoading`. -/
structure CatalogState where
  stations : List Station
  stationsError : Option String
  stationsLoading : Bool
deriving DecidableEq

/-- How one run of the stations fetch resolved. -/
inductive StationsFetchResult
  | httpError (status : Nat)
  | invalidFormat
  | networkError (msg : String)
  | ok (data : List Station)
deriving DecidableEq

/-- `loadStations` (Reservation.tsx lines 184-201), given how the fetch
resolved: success replaces the held list wholesale and clears the error;
a non-ok response, a non-array payload, or a thrown transport error set
`stationsError` to the corresponding message and leave `stations`
untouched; `stationsLoading` is reset in `finally`. -/
def loadStations (st : CatalogState) (r : StationsFetchResult) : CatalogState :=
  match r with
  | .ok data =>
    { stations := data, stationsError := none, stationsLoading := false }
  | .httpError code =>
    { st with
      stationsError := some ("Failed to load stations (status " ++ toString code ++ ")"),
      stationsLoading := false }
  | .invalidFormat =>
    { st with stationsError := some "Invalid stations response format",
              stationsLoading := false }
  | .networkError msg =>
    { st with stationsError := some msg, stationsLoading := false }

/-- State held by `LeafletMap` (Contact.tsx bundle, `fetchStations`):
`stations`, `error`, `isLoading`. -/
structure MapState where
  stations : List Station
  error : Option String
  isLoading : Bool
deriving DecidableEq

/-- `fetchStations` of `LeafletMap`: the same success/failure handling as
`loadStations` (the thrown messages are identical; a failure is also
logged to the console, which has no state effect). -/
def fetchStations (st : MapState) (r : StationsFetchResult) : MapState :=
  match r with
  | .ok data => { stations := data, error := none, isLoading := false }
  | .httpError code =>
    { st with
      error := some ("Failed to load stations (status " ++ toString code ++ ")"),
      isLoading := false }
  | .invalidFormat =>
    { st with error := some "Invalid stations response format", isLoading := false }
  | .networkError msg =>
    { st with error := some msg, isLoading := false }

/-- The `Reservation` interface of Reservation.tsx (lines 28-37). -/
structure Reservation where
  reservation_id : String
  station_id : String
  station : String
  date : String
  time_slot : String
  predicted_demand : String
  price : Nat
  status : String
deriving DecidableEq

/-- How one run of the `GET /api/reservations` fetch resolved; `ok` carries
`data.reservations`, which may be absent (`none`) — the source falls back
to `[]`. -/
inductive ListFetchResult
  | httpError (status : Nat)
  | networkError (msg : String)
  | ok (reservations : Option (List Reservation))
deriving DecidableEq

/-- Outcome of `fetchUserReservations`: skipped without any network call,
the list replaced from the response, or a failure that is merely logged to
the console. -/
inductive ListOutcome
  | skipped
  | replaced (l : List Reservation)
  | loggedError (msg : String)
deriving DecidableEq

/-- The user-visible state touched (or deliberately not touched) by
`fetchUserReservations`: the displayed list and the only user-facing error
channel of the page. -/
structure ReservationsView where
  userReservations : List Reservation
  submitError : Option String
deriving DecidableEq

/-- `fetchUserReservations` (Reservation.tsx lines 89-102): without a truthy
`user?.email` it returns at once (the response argument is never
consulted); otherwise a non-ok status or a thrown transport error is
caught and only logged, and a success stores `data.reservations || []`. -/
def fetchUserReservations (userEmail : Option String) (resp : ListFetchResult) :
    ListOutcome :=
  match userEmail with
  | none => .skipped
  | some e =>
    if e = "" then .skipped
    else
      match resp with
      | .ok rs => .replaced (rs.getD [])
      | .httpError code =>
        .loggedError ("Failed to fetch reservations (status " ++ toString code ++ ")")
      | .networkError msg => .loggedError msg

/-- Applying an outcome to the page state: a skip and a logged failure leave
both the displayed list and the user-facing error channel unchanged. -/
def applyListOutcome (st : ReservationsView) (o : ListOutcome) : ReservationsView :=
  match o with
  | .skipped => st
  | .replaced l => { st with userReservations := l }
  | .loggedError _ => st

/-! ## Cross-page handoff and the reservation page effects (Reservation.tsx)

`LeafletMap.handleReserve` navigates with
`state = { station_id, demand_level }`.  `ReservationPage` consumes that
payload in the effect at lines 204-212, whose dependency array is
`[location.state]`, and re-derives the demand level from the catalog in the
effect at lines 215-218, whose dependency array is `[stationId, stations]`.
React re-runs an effect only when its dependency tuple differs from the one
it last ran with; the model keeps those last-run tuples (`handoffDep`,
`stationDep`, `none` before the first render) and re-runs on difference.
Effect cascades (an effect's state update re-triggering the later effect)
are collapsed into one settled pass, which is the state the claims speak
about. -/

/-- The navigation payload attached by `LeafletMap.handleReserve`; both
properties are optional on the receiving side. -/
structure Handoff where
  station_id : Option String
  demand_level : Option String
deriving DecidableEq

/-- The slice of `ReservationPage` state the handoff claims concern, plus
the effect-dependency memory described above. -/
structure PageState where
  stationId : String
  predictedDemand : String
  stations : List Station
  navState : Option Handoff
  handoffDep : Option (Option Handoff)
  stationDep : Option (String × List Station)
deriving DecidableEq

/-- Initial `ReservationPage` state (lines 60, 68-69): no station selected,
demand display `"Low"`, empty catalog, effects not yet run. -/
def initialPageState (nav : Option Handoff) : PageState :=
  { stationId := "", predictedDemand := "Low", stations := [],
    navState := nav, handoffDep := none, stationDep := none }

/-- Body of the prefill effect (lines 204-212): each payload property is
applied only if truthy (present and nonempty). -/
def runHandoffEffect (st : PageState) : PageState :=
  match st.navState with
  | none => st
  | some h =>
    let st1 :=
      match h.station_id with
      | some sid => if sid = "" then st else { st with stationId := sid }
      | none => st
    match h.demand_level with
    | some d => if d = "" then st1 else { st1 with predictedDemand := d }
    | none => st1

/-- Body of the demand auto-fill effect (lines 215-218): if the selected
station is in the live catalog, its demand level overwrites the display. -/
def runStationEffect (st : PageState) : PageState :=
  match st.stations.find? (fun s => s.station_id == st.stationId) with
  | some s => { st with predictedDemand := s.demand_level }
  | none => st

/-- Dependency guard of the prefill effect: run it exactly when
`location.state` differs from the value it last ran with, and record that
value. -/
def runHandoffGuard (st : PageState) : PageState :=
  if st.handoffDep = some st.navState then st
  else { runHandoffEffect st with handoffDep := some st.navState }

/-- Dependency guard of the demand auto-fill effect, over
`[stationId, stations]`. -/
def runStationGuard (st : PageState) : PageState :=
  if st.stationDep = some (st.stationId, st.stations) then st
  else { runStationEffect st with stationDep := some (st.stationId, st.stations) }

/-- One settled render: the two effects' guards in declaration order. -/
def runEffects (st : PageState) : PageState :=
  runStationGuard (runHandoffGuard st)

/-- Events observable by the page: the user picking a station from the
dropdown (`setStationId` via the select's change handler), a navigation
that installs a (possibly absent) handoff payload, and a render in which
nothing relevant changed. -/
inductive PageEvent
  | selectStation (sid : String)
  | navigateWith (h : Option Handoff)
  | rerender
deriving DecidableEq

/-- Event step: state updates followed by a settled render. -/
def pageStep (st : PageState) : PageEvent → PageState
  | .selectStation sid => runEffects { st with stationId := sid }
  | .navigateWith h => runEffects { st with navState := h }
  | .rerender => runEffects st

/-- A state whose effect-dependency memory matches its current inputs: no
effect would run on a render without new inputs.  Every state produced by
`runEffects` is settled. -/
def PageSettled (st : PageState) : Prop :=
  st.handoffDep = some st.navState ∧ st.stationDep = some (st.stationId, st.stations)

instance : DecidablePred PageSettled := fun st => by
  unfold PageSettled
  infer_instance

/-! ## Auxiliary definitions for the round-trip proofs -/

/-- The input does not start with a decimal digit (so a number literal just
before it cannot absorb it). -/
def noDigitHead : List Char → Bool
  | [] => true
  | c :: _ => !c.isDigit

/-- Value of a least-significant-first decimal digit list. -/
def ofDigitsRev : List Nat → Nat
  | [] => 0
  | d :: ds => d + 10 * ofDigitsRev ds

/-- All string fields of a snapshot are free of control characters, the one
class of characters on which the modelled `JSON.stringify` escaping is not
exhaustive: this is exactly the "well-formed snapshot" premise of the
persistence claims. -/
def controlFree (s : String) : Prop := ∀ c ∈ s.data, 32 ≤ c.toNat

instance (s : String) : Decidable (controlFree s) := by
  unfold controlFree
  infer_instance

/-- An optional string field is control-character-free when present. -/
def controlFreeOpt : Option String → Prop
  | none => True
  | some s => controlFree s

instance (o : Option String) : Decidable (controlFreeOpt o) := by
  cases o <;> {unfold controlFreeOpt; infer_instance}

/-- Well-formed snapshot: every string field is control-character-free. -/
def wellFormedLatest (r : LatestReservation) : Prop :=
  controlFree r.reservation_id ∧ controlFree r.station ∧ controlFree r.date ∧
  controlFree r.time_slot ∧ controlFree r.status ∧
  controlFreeOpt r.predicted_demand ∧ controlFreeOpt r.station_id

instance (r : LatestReservation) : Decidable (wellFormedLatest r) := by
  unfold wellFormedLatest
  infer_instance

/-! ## Round-trip lemmas for the JSON fragment -/

theorem strMk_data (s : String) : String.mk s.data = s := rfl

theorem parseStrAux_escape (s : List Char) :
    ∀ (rest acc : List Char),
      parseStrAux (escapeChars s ++ '"' :: rest) acc = some (acc.reverse ++ s, rest) := by
  induction s with
  | nil =>
    intro rest acc
    simp [escapeChars, parseStrAux.eq_def]
  | cons c cs ih =>
    intro rest acc
    by_cases hc : c = '"' ∨ c = '\\'
    · have h1 : escapeChars (c :: cs) = '\\' :: c :: escapeChars cs := by
        simp [escapeChars, hc]
      have hbq : ¬ (('\\' : Char) = '"') := by decide
      rw [h1, List.cons_append, List.cons_append]
      rw [parseStrAux.eq_def]
      simp only [if_neg hbq, if_pos rfl, if_pos hc]
      rw [ih rest (c :: acc)]
      simp
    · push_neg at hc
      have h1 : escapeChars (c :: cs) = c :: escapeChars cs := by
        simp [escapeChars, hc.1, hc.2]
      rw [h1, List.cons_append]
      rw [parseStrAux.eq_def]
      simp only [if_neg hc.1, if_neg hc.2]
      rw [ih rest (c :: acc)]
      simp

theorem digitChar_isDigit {d : Nat} (hd : d < 10) : (digitChar d).isDigit = true := by
  interval_cases d <;> decide

theorem digitVal_digitChar {d : Nat} (hd : d < 10) : digitVal (digitChar d) = d := by
  interval_cases d <;> decide

theorem natDigitsRev_lt (fuel : Nat) : ∀ (n : Nat), ∀ d ∈ natDigitsRev fuel n, d < 10 := by
  induction fuel with
  | zero => intro n d hd; simp [natDigitsRev] at hd
  | succ f ih =>
    intro n d hd
    by_cases h : n = 0
    · simp [natDigitsRev, h] at hd
    · rw [natDigitsRev, if_neg h] at hd
      rcases List.mem_cons.mp hd with h1 | h2
      · subst h1; exact Nat.mod_lt _ (by norm_num)
      · exact ih _ d h2

theorem ofDigitsRev_natDigitsRev (fuel : Nat) :
    ∀ n, n ≤ fuel → ofDigitsRev (natDigitsRev fuel n) = n := by
  induction fuel with
  | zero =>
    intro n hn
    interval_cases n
    simp [natDigitsRev, ofDigitsRev]
  | succ f ih =>
    intro n hn
    by_cases h : n = 0
    · simp [natDigitsRev, h, ofDigitsRev]
    · have hdiv : n / 10 ≤ f := by
        have := Nat.div_lt_self (Nat.pos_of_ne_zero h) (by norm_num : 1 < 10)
        omega
      rw [natDigitsRev, if_neg h, ofDigitsRev, ih _ hdiv]
      omega

theorem parseNatAux_digits (ds : List Nat) :
    ∀ (rest : List Char) (acc : Nat), (∀ d ∈ ds, d < 10) → noDigitHead rest = true →
      parseNatAux (ds.map digitChar ++ rest) acc =
        (ds.foldl (fun a d => a * 10 + d) acc, rest) := by
  induction ds with
  | nil =>
    intro rest acc _ hrest
    cases rest with
    | nil => simp [parseNatAux]
    | cons c cs =>
      simp only [noDigitHead, Bool.not_eq_true'] at hrest
      simp [parseNatAux, hrest]
  | cons d ds ih =>
    intro rest acc hds hrest
    have hd : d < 10 := hds d (by simp)
    rw [List.map_cons, List.cons_append, parseNatAux.eq_def]
    simp only [digitChar_isDigit hd, if_pos, digitVal_digitChar hd]
    rw [ih rest (acc * 10 + d) (fun x hx => hds x (by simp [hx])) hrest]
    simp

theorem foldl_reverse_ofDigitsRev (ds : List Nat) :
    ∀ acc, ds.reverse.foldl (fun a d => a * 10 + d) acc = acc * 10 ^ ds.length + ofDigitsRev ds := by
  induction ds with
  | nil => intro acc; simp [ofDigitsRev]
  | cons d ds ih =>
    intro acc
    rw [List.reverse_cons, List.foldl_append, ih acc]
    simp [ofDigitsRev]
    ring

theorem parseNatLit_printNatLit (n : Nat) (rest : List Char)
    (hrest : noDigitHead rest = true) :
    parseNatLit (printNatLit n ++ rest) = some (n, rest) := by
  by_cases h : n = 0
  · subst h
    have h0 : printNatLit 0 = List.map digitChar [0] := by decide
    rw [h0, parseNatLit.eq_def]
    simp only [List.map_cons, List.map_nil, List.cons_append, List.nil_append]
    rw [if_pos (digitChar_isDigit (by norm_num : (0:Nat) < 10))]
    rw [show (digitChar 0 :: rest) = List.map digitChar [0] ++ rest by simp]
    rw [parseNatAux_digits [0] rest 0 (by simp) hrest]
    simp
  · have hlt : ∀ d ∈ (natDigitsRev n n).reverse, d < 10 :=
      fun d hd => natDigitsRev_lt n n d (List.mem_reverse.mp hd)
    have hne : (natDigitsRev n n).reverse ≠ [] := by
      obtain ⟨m, rfl⟩ : ∃ m, n = m + 1 := ⟨n - 1, by omega⟩
      rw [natDigitsRev, if_neg h]
      simp
    obtain ⟨e, es, hes⟩ := List.exists_cons_of_ne_nil hne
    have he : e < 10 := hlt e (by rw [hes]; simp)
    rw [printNatLit, if_neg h, hes, List.map_cons, List.cons_append]
    simp only [parseNatLit.eq_def]
    rw [if_pos (digitChar_isDigit he)]
    rw [show (digitChar e :: (List.map digitChar es ++ rest)) =
          List.map digitChar (e :: es) ++ rest by simp]
    rw [parseNatAux_digits (e :: es) rest 0 (by rw [← hes]; exact hlt) hrest]
    rw [← hes, foldl_reverse_ofDigitsRev, ofDigitsRev_natDigitsRev n n le_rfl]
    simp

theorem printNatLit_head (n : Nat) :
    ∃ c cs, printNatLit n = c :: cs ∧ c.isDigit = true := by
  by_cases h : n = 0
  · exact ⟨'0', [], by simp [printNatLit, h], by decide⟩
  · have hne : (natDigitsRev n n).reverse ≠ [] := by
      obtain ⟨m, rfl⟩ : ∃ m, n = m + 1 := ⟨n - 1, by omega⟩
      rw [natDigitsRev, if_neg h]
      simp
    obtain ⟨e, es, hes⟩ := List.exists_cons_of_ne_nil hne
    have he : e < 10 := natDigitsRev_lt n n e (List.mem_reverse.mp (by rw [hes]; simp))
    exact ⟨digitChar e, es.map digitChar,
      by rw [printNatLit, if_neg h, hes, List.map_cons], digitChar_isDigit he⟩

theorem parseJVal_print (v : JVal) (rest : List Char)
    (hrest : noDigitHead rest = true) :
    parseJVal (printJVal v ++ rest) = some (v, rest) := by
  cases v with
  | str s =>
    rw [printJVal, printStrLit, List.cons_append, parseJVal]
    rw [if_pos rfl, List.append_assoc, List.singleton_append, parseStrAux_escape]
    simp [strMk_data]
  | num n =>
    obtain ⟨c, cs, hprint, hdigit⟩ := printNatLit_head n
    have hq : ¬ (c = '"') := by
      intro hc
      rw [hc] at hdigit
      exact absurd hdigit (by decide)
    rw [printJVal, hprint, List.cons_append, parseJVal, if_neg hq, if_pos hdigit]
    rw [← List.cons_append, ← hprint, parseNatLit_printNatLit n rest hrest]

theorem parseField_print (k : String) (v : JVal) (rest : List Char)
    (hrest : noDigitHead rest = true) :
    parseField (printStrLit k ++ ':' :: (printJVal v ++ rest)) = some ((k, v), rest) := by
  rw [printStrLit, List.cons_append, parseField, if_pos rfl]
  rw [List.append_assoc, List.singleton_append, parseStrAux_escape]
  simp only [List.nil_append]
  rw [parseJVal_print v rest hrest]
  simp [strMk_data]

theorem parseObjBody_succ_quote (f : Nat) (tail : List Char) :
    parseObjBody (f + 1) ('"' :: tail) =
      (match parseField ('"' :: tail) with
       | some (kv, r) =>
         match r with
         | ',' :: r2 =>
           (match parseObjBody f r2 with
            | some (fs, r3) => some (kv :: fs, r3)
            | none => none)
         | '}' :: r2 => some ([kv], r2)
         | _ => none
       | none => none) := by
  rw [parseObjBody]
  rw [if_neg (by decide : ¬ (('"' : Char) = '}'))]

theorem parseObjBody_print (fields : JObject) :
    ∀ (fuel : Nat) (rest : List Char), fields.length < fuel →
      parseObjBody fuel (printFieldsBody fields ++ rest) = some (fields, rest) := by
  induction fields with
  | nil =>
    intro fuel rest hfuel
    obtain ⟨f, rfl⟩ : ∃ f, fuel = f + 1 := ⟨fuel - 1, by omega⟩
    rw [printFieldsBody, List.singleton_append, parseObjBody]
    rw [if_pos rfl]
  | cons kv fs ih =>
    obtain ⟨k, v⟩ := kv
    intro fuel rest hfuel
    obtain ⟨f, rfl⟩ : ∃ f, fuel = f + 1 := ⟨fuel - 1, by omega⟩
    cases fs with
    | nil =>
      have hsplit : printFieldsBody [(k, v)] ++ rest
          = '"' :: ((escapeChars k.data ++ ['"']) ++ (':' :: (printJVal v ++ ('}' :: rest)))) := by
        simp [printFieldsBody, printStrLit]
      have hfield : parseField ('"' :: ((escapeChars k.data ++ ['"']) ++ (':' :: (printJVal v ++ ('}' :: rest)))))
          = some ((k, v), '}' :: rest) := by
        have h := parseField_print k v ('}' :: rest) (by rfl)
        rw [printStrLit, List.cons_append] at h
        exact h
      rw [hsplit, parseObjBody_succ_quote, hfield]
      simp
    | cons kv2 fs2 =>
      have hsplit : printFieldsBody ((k, v) :: kv2 :: fs2) ++ rest
          = '"' :: ((escapeChars k.data ++ ['"']) ++
              (':' :: (printJVal v ++ (',' :: (printFieldsBody (kv2 :: fs2) ++ rest))))) := by
        simp [printFieldsBody, printStrLit]
      have hfield : parseField ('"' :: ((escapeChars k.data ++ ['"']) ++
              (':' :: (printJVal v ++ (',' :: (printFieldsBody (kv2 :: fs2) ++ rest))))))
          = some ((k, v), ',' :: (printFieldsBody (kv2 :: fs2) ++ rest)) := by
        have h := parseField_print k v (',' :: (printFieldsBody (kv2 :: fs2) ++ rest)) (by rfl)
        rw [printStrLit, List.cons_append] at h
        exact h
      rw [hsplit, parseObjBody_succ_quote, hfield]
      have hrec := ih f rest (by simp at hfuel ⊢; omega)
      simp [hrec]

theorem printFieldsBody_length (fields : JObject) :
    fields.length ≤ (printFieldsBody fields).length := by
  induction fields with
  | nil => simp [printFieldsBody]
  | cons kv fs ih =>
    obtain ⟨k, v⟩ := kv
    cases fs with
    | nil => simp [printFieldsBody, printStrLit]
    | cons kv2 fs2 =>
      rw [printFieldsBody]
      simp only [List.length_cons, List.length_append, printStrLit] at ih ⊢
      omega

theorem parseJsonTop_print (fields : JObject) :
    parseJsonTop (printJsonTop fields) = some fields := by
  have hlen : fields.length < (printFieldsBody fields).length + 1 :=
    Nat.lt_succ_of_le (printFieldsBody_length fields)
  have h := parseObjBody_print fields ((printFieldsBody fields).length + 1) [] hlen
  rw [List.append_nil] at h
  rw [printJsonTop, parseJsonTop, if_pos rfl, h]

theorem decodeLatestJson_encodeLatest (r : LatestReservation) :
    decodeLatestJson (encodeLatest r) = some r := by
  obtain ⟨rid, st, d, ts, p, stat, pd, sid⟩ := r
  cases pd <;> cases sid <;> rfl

theorem hydrate_serializeLatest (s : LatestReservation) :
    hydrate (some (serializeLatest s)) = some (encodeLatest s) := by
  have hdata : (serializeLatest s).data = printJsonTop (encodeLatest s) := rfl
  rw [hydrate, hdata, printJsonTop]
  rw [if_neg (by simp : ¬ ('{' :: printFieldsBody (encodeLatest s)).isEmpty = true)]
  rw [← printJsonTop, parseJsonTop_print]

/-- Claim C1: for every demand level in \x7bLow, Medium, High\x7d and every time
slot in \x7bMorning, Afternoon, Evening, Night\x7d, `calculatePrice` returns the
base price of the demand tier (Low = 200, Medium = 300, High = 400) plus
100 exactly when the slot is Night; in particular price(Low, Morning) =
200, price(High, Night) = 500, price(Medium, Evening) = 300. -/
theorem c1_calculatePrice_base_plus_night_surcharge :
    (∀ (d : DemandLevel) (t : TimeSlot),
      calculatePrice d.toName t.toName
        = basePrice d + (if t = TimeSlot.Night then 100 else 0) ∧
      (calculatePrice d.toName t.toName = basePrice d + 100 ↔ t = TimeSlot.Night)) ∧
    calculatePrice "Low" "Morning" = 200 ∧
    calculatePrice "High" "Night" = 500 ∧
    calculatePrice "Medium" "Evening" = 300 := by
  refine ⟨fun d t => ?_, by decide, by decide, by decide⟩
  cases d <;> cases t <;> exact (by decide)

/-- Claim C10: `calculatePrice` is total over arbitrary demand strings and
defaults to the Low tier: any demand other than the literals "High" and
"Medium" is priced at base 200 plus the Night surcharge. -/
theorem c10_calculatePrice_total_default_low (demand timeSlot : String)
    (hH : demand ≠ "High") (hM : demand ≠ "Medium") :
    calculatePrice demand timeSlot = 200 + (if timeSlot = "Night" then 100 else 0) := by
  simp [calculatePrice, hH, hM]

theorem c10_witness :
    ("Surge" : String) ≠ "High" ∧ ("Surge" : String) ≠ "Medium" ∧
      calculatePrice "Surge" "Night" = 300 := by
  refine ⟨by decide, by decide, ?_⟩
  have h := c10_calculatePrice_total_default_low "Surge" "Night" (by decide) (by decide)
  simpa using h

/-- Claim C2 (code bug): the snapshot that `handleReserve` passes to
`setLatestReservation` copies the server's `status` string verbatim, so a
reserve response whose status is "Pending" is stored with status
"Pending" — contradicting the `status : "Confirmed"` declaration of the
`LatestReservation` interface and the claimed invariant. -/
theorem c2_snapshot_status_copied_verbatim :
    (∀ (resp : ReserveResponse) (pd sid : String),
        (latestFromResponse resp pd sid).status = resp.status) ∧
    (latestFromResponse
        { reservation_id := "r1", station := "Central", date := "2026-10-11",
          time_slot := "Morning", price := 200, status := "Pending" }
        "Low" "st1").status = "Pending" ∧
    ("Pending" : String) ≠ "Confirmed" :=
  ⟨fun _ _ _ => rfl, rfl, by decide⟩

/-- Claim C3: within one process, `set(some s)` followed by a read yields
exactly `s` (its JSON tree, which `decodeLatestJson` maps back to `s`),
for every reader of the store and whether or not the best-effort durable
write succeeded; `set(none)` followed by a read yields nothing. -/
theorem c3_snapshot_set_get_roundtrip :
    ∀ (st : StoreState) (s : LatestReservation) (storageOk : Bool),
      readLatest (setLatestReservation st (some s) storageOk) = some (encodeLatest s) ∧
      decodeLatestJson (encodeLatest s) = some s ∧
      readLatest (setLatestReservation st none storageOk) = none :=
  fun _ s _ => ⟨rfl, decodeLatestJson_encodeLatest s, rfl⟩

/-- Claim C4: for every well-formed snapshot `s`, the durable value written
by `set(some s)` rehydrates on the next startup's first read to exactly the
value that was stored (serialize-then-parse is the identity, witnessed by
`decodeLatestJson` recovering `s`). -/
theorem c4_snapshot_reload_roundtrip (st : StoreState) (s : LatestReservation)
    (_hwf : wellFormedLatest s) :
    readLatest (startupStore (setLatestReservation st (some s) true).slot)
      = some (encodeLatest s) ∧
    decodeLatestJson (encodeLatest s) = some s :=
  ⟨hydrate_serializeLatest s, decodeLatestJson_encodeLatest s⟩

theorem c4_witness :
    wellFormedLatest
      { reservation_id := "r42", station := "Central Plaza", date := "2026-10-11",
        time_slot := "Night", price := 500, status := "Confirmed",
        predicted_demand := some "High", station_id := some "st7" } ∧
    readLatest (startupStore (setLatestReservation ⟨none, none⟩
        (some { reservation_id := "r42", station := "Central Plaza", date := "2026-10-11",
                time_slot := "Night", price := 500, status := "Confirmed",
                predicted_demand := some "High", station_id := some "st7" }) true).slot)
      = some (encodeLatest
        { reservation_id := "r42", station := "Central Plaza", date := "2026-10-11",
          time_slot := "Night", price := 500, status := "Confirmed",
          predicted_demand := some "High", station_id := some "st7" }) := by
  refine ⟨by decide, ?_⟩
  exact (c4_snapshot_reload_roundtrip ⟨none, none⟩ _ (by decide)).1

/-- Claim C5 (counterexample): the stored string "\x7b\x7d" fails to parse as a
snapshot (its parsed JSON decodes to no `LatestReservation`), yet the
hydrating read does not yield nothing: the source stores the result of
`JSON.parse` with no shape validation, so the junk object is kept. -/
theorem c5_counterexample_nonsnapshot_json_kept :
    (parseJsonTop ("\x7b\x7d" : String).data).bind decodeLatestJson = none ∧
    hydrate (some "\x7b\x7d") = some ([] : JObject) ∧
    hydrate (some "\x7b\x7d") ≠ none := by
  refine ⟨rfl, rfl, by decide⟩

/-- Claim C5 (amended): for every stored string that is not valid JSON, and
for a missing slot, the hydrating read raises no error and yields nothing;
a stored string that parses as JSON but is not a snapshot is kept
verbatim rather than discarded. -/
theorem c5_amended_invalid_json_hydrates_to_nothing :
    (∀ raw : String, parseJsonTop raw.data = none → hydrate (some raw) = none) ∧
    hydrate none = none := by
  constructor
  · intro raw h
    rw [hydrate]
    by_cases he : raw.data.isEmpty
    · rw [if_pos he]
    · rw [if_neg he, h]
  · rfl

theorem c5_witness :
    parseJsonTop ("not json" : String).data = none ∧
      hydrate (some "not json") = none := by
  have h : parseJsonTop ("not json" : String).data = none := by decide
  exact ⟨h, c5_amended_invalid_json_hydrates_to_nothing.1 "not json" h⟩

/-- Claim C6: when any of date, time slot, or station id is unset, `create`
(`handleReserve`) never reaches the network request and fails locally with
the validation message naming the first missing field in check order. -/
theorem c6_create_validation_short_circuits
    (date timeSlot stationId predictedDemand : String) (userEmail : Option String)
    (hmiss : date = "" ∨ timeSlot = "" ∨ stationId = "") :
    (∀ body, handleReserveValidate date timeSlot stationId predictedDemand userEmail
        ≠ ReserveAttempt.request body) ∧
    (date = "" →
        handleReserveValidate date timeSlot stationId predictedDemand userEmail
          = .validationError "Please select a date.") ∧
    (date ≠ "" → timeSlot = "" →
        handleReserveValidate date timeSlot stationId predictedDemand userEmail
          = .validationError "Please select a time slot.") ∧
    (date ≠ "" → timeSlot ≠ "" → stationId = "" →
        handleReserveValidate date timeSlot stationId predictedDemand userEmail
          = .validationError "Please select a pickup station.") := by
  refine ⟨?_, ?_, ?_, ?_⟩
  · intro body hbody
    unfold handleReserveValidate at hbody
    by_cases hd : date = ""
    · rw [if_pos hd] at hbody
      exact ReserveAttempt.noConfusion hbody
    · by_cases ht : timeSlot = ""
      · rw [if_neg hd, if_pos ht] at hbody
        exact ReserveAttempt.noConfusion hbody
      · by_cases hs : stationId = ""
        · rw [if_neg hd, if_neg ht, if_pos hs] at hbody
          exact ReserveAttempt.noConfusion hbody
        · rcases hmiss with h | h | h
          · exact hd h
          · exact ht h
          · exact hs h
  · intro h
    simp [handleReserveValidate, h]
  · intro hd ht
    simp [handleReserveValidate, hd, ht]
  · intro hd ht hs
    simp [handleReserveValidate, hd, ht, hs]

theorem c6_witness :
    handleReserveValidate "" "Morning" "st1" "Low" (some "user@example.com")
      = ReserveAttempt.validationError "Please select a date." ∧
    (∀ body, handleReserveValidate "" "Morning" "st1" "Low" (some "user@example.com")
      ≠ ReserveAttempt.request body) := by
  have h := c6_create_validation_short_circuits "" "Morning" "st1" "Low"
    (some "user@example.com") (Or.inl rfl)
  exact ⟨h.2.1 rfl, h.1⟩

/-- Claim C7: a station-catalog load that ends in a non-success response, a
malformed (non-array) payload, or a thrown transport error moves the
catalog to an error state carrying a message and leaves the previously
held station list untouched, in both `loadStations` (reservation page) and
`fetchStations` (map view); a successful load replaces the list
wholesale. -/
theorem c7_station_catalog_error_preserves_list (st : CatalogState) (mst : MapState)
    (r : StationsFetchResult) :
    ((∀ data, r ≠ StationsFetchResult.ok data) →
        (loadStations st r).stations = st.stations ∧
        (fetchStations mst r).stations = mst.stations ∧
        (∃ msg, (loadStations st r).stationsError = some msg) ∧
        (∃ msg, (fetchStations mst r).error = some msg)) ∧
    (∀ data, r = StationsFetchResult.ok data →
        loadStations st r
          = { stations := data, stationsError := none, stationsLoading := false } ∧
        fetchStations mst r
          = { stations := data, error := none, isLoading := false }) := by
  constructor
  · intro hne
    cases r with
    | ok data => exact absurd rfl (hne data)
    | httpError code => exact ⟨rfl, rfl, ⟨_, rfl⟩, ⟨_, rfl⟩⟩
    | invalidFormat => exact ⟨rfl, rfl, ⟨_, rfl⟩, ⟨_, rfl⟩⟩
    | networkError msg => exact ⟨rfl, rfl, ⟨_, rfl⟩, ⟨_, rfl⟩⟩
  · intro data hdata
    subst hdata
    exact ⟨rfl, rfl⟩

theorem c7_witness :
    (loadStations ⟨[⟨"st1", "Central", 0, 0, 5, "High"⟩], none, true⟩
        (.httpError 500)).stations = [⟨"st1", "Central", 0, 0, 5, "High"⟩] ∧
    (loadStations ⟨[⟨"st1", "Central", 0, 0, 5, "High"⟩], none, true⟩
        (.httpError 500)).stationsError = some "Failed to load stations (status 500)" ∧
    loadStations ⟨[⟨"st1", "Central", 0, 0, 5, "High"⟩], none, true⟩
        (.ok [⟨"st2", "North", 1, 1, 2, "Low"⟩])
      = ⟨[⟨"st2", "North", 1, 1, 2, "Low"⟩], none, false⟩ := by
  have h := c7_station_catalog_error_preserves_list
    ⟨[⟨"st1", "Central", 0, 0, 5, "High"⟩], none, true⟩
    ⟨[], none, false⟩ (.httpError 500)
  have h2 := c7_station_catalog_error_preserves_list
    ⟨[⟨"st1", "Central", 0, 0, 5, "High"⟩], none, true⟩
    ⟨[], none, false⟩ (.ok [⟨"st2", "North", 1, 1, 2, "Low"⟩])
  refine ⟨(h.1 (by intro data hx; cases hx)).1, by decide, (h2.2 _ rfl).1⟩

/-- Claim C9: `list` with no user identity short-circuits — it produces no
reservations and its outcome does not depend on any response (no network
call), leaving the view untouched; a failing fetch is only logged, leaving
both the displayed list and the user-facing error channel unchanged. -/
theorem c9_list_short_circuit_and_silent_failure (st : ReservationsView) :
    (∀ resp, fetchUserReservations none resp = ListOutcome.skipped) ∧
    (∀ resp, fetchUserReservations (some "") resp = ListOutcome.skipped) ∧
    applyListOutcome st ListOutcome.skipped = st ∧
    (∀ e resp, e ≠ "" → (∀ l, resp ≠ ListFetchResult.ok l) →
        ∃ msg, fetchUserReservations (some e) resp = ListOutcome.loggedError msg) ∧
    (∀ msg, applyListOutcome st (ListOutcome.loggedError msg) = st) := by
  refine ⟨fun resp => rfl, fun resp => by simp [fetchUserReservations], rfl, ?_, fun msg => rfl⟩
  intro e resp he hresp
  cases resp with
  | ok l => exact absurd rfl (hresp l)
  | httpError code =>
    exact ⟨"Failed to fetch reservations (status " ++ toString code ++ ")",
      by simp [fetchUserReservations, he]⟩
  | networkError msg => exact ⟨msg, by simp [fetchUserReservations, he]⟩

theorem c9_witness :
    fetchUserReservations none (ListFetchResult.httpError 500) = ListOutcome.skipped ∧
    applyListOutcome ⟨[], none⟩ ListOutcome.skipped = (⟨[], none⟩ : ReservationsView) ∧
    (∃ msg, fetchUserReservations (some "user@example.com") (ListFetchResult.httpError 500)
        = ListOutcome.loggedError msg) ∧
    applyListOutcome ⟨[], none⟩
        (ListOutcome.loggedError "Failed to fetch reservations (status 500)")
      = (⟨[], none⟩ : ReservationsView) := by
  have h := c9_list_short_circuit_and_silent_failure ⟨[], none⟩
  exact ⟨h.1 _, h.2.2.1,
    h.2.2.2.1 "user@example.com" (.httpError 500) (by decide) (by intro l hx; cases hx),
    h.2.2.2.2 _⟩
theorem runEffects_settled (st : PageState) (h : PageSettled st) : runEffects st = st := by
  obtain ⟨h1, h2⟩ := h
  rw [runEffects, runHandoffGuard, if_pos h1, runStationGuard, if_pos h2]

theorem foldl_rerender_settled (st : PageState) (h : PageSettled st) :
    ∀ evs : List PageEvent, (∀ e ∈ evs, e = PageEvent.rerender) →
      evs.foldl pageStep st = st := by
  intro evs
  induction evs with
  | nil => intro _; rfl
  | cons e es ih =>
    intro hevs
    have he : e = PageEvent.rerender := hevs e (by simp)
    subst he
    rw [List.foldl_cons, show pageStep st .rerender = st from runEffects_settled st h]
    exact ih (fun x hx => hevs x (by simp [hx]))

/-- Claim C8: the reservation view consumes the `(stationId, demandLevel)`
handoff exactly once on mount to seed the station selection and demand
display; after the user selects a different station, renders without a new
handoff never re-apply the old payload, and the demand level is re-derived
from the live station catalog rather than the stale handoff value. -/
theorem c8_handoff_one_shot :
    (∀ (h : Handoff) (sid d : String),
      h.station_id = some sid → sid ≠ "" → h.demand_level = some d → d ≠ "" →
      (runEffects (initialPageState (some h))).stationId = sid ∧
      (runEffects (initialPageState (some h))).predictedDemand = d) ∧
    (∀ (st : PageState) (sid : String) (s : Station),
      PageSettled st → sid ≠ st.stationId →
      st.stations.find? (fun t => t.station_id == sid) = some s →
      ∀ evs : List PageEvent, (∀ e ∈ evs, e = PageEvent.rerender) →
        (evs.foldl pageStep (pageStep st (.selectStation sid))).stationId = sid ∧
        (evs.foldl pageStep (pageStep st (.selectStation sid))).predictedDemand
          = s.demand_level) := by
  constructor
  · intro h sid d hsid hsne hd hdne
    simp [initialPageState, runEffects, runHandoffGuard, runStationGuard,
      runHandoffEffect, runStationEffect, hsid, hd, hsne, hdne]
  · intro st sid s hset hne hfind evs hevs
    obtain ⟨h1, h2⟩ := hset
    have hg1 : runHandoffGuard { st with stationId := sid } = { st with stationId := sid } := by
      simp [runHandoffGuard, h1]
    have hcond : ¬ (({ st with stationId := sid } : PageState).stationDep
        = some (({ st with stationId := sid } : PageState).stationId,
                ({ st with stationId := sid } : PageState).stations)) := by
      simp [h2]
      intro hx
      exact absurd hx.symm hne
    have hg2 : runStationGuard { st with stationId := sid } =
        { stationId := sid, predictedDemand := s.demand_level,
          stations := st.stations, navState := st.navState,
          handoffDep := st.handoffDep,
          stationDep := some (sid, st.stations) } := by
      rw [runStationGuard, if_neg hcond]
      simp [runStationEffect, hfind]
    have hstep : pageStep st (.selectStation sid) =
        { stationId := sid, predictedDemand := s.demand_level,
          stations := st.stations, navState := st.navState,
          handoffDep := st.handoffDep,
          stationDep := some (sid, st.stations) } := by
      show runEffects { st with stationId := sid } = _
      rw [runEffects, hg1, hg2]
    have hsettled2 : PageSettled (pageStep st (.selectStation sid)) := by
      rw [hstep]
      exact ⟨h1, rfl⟩
    rw [foldl_rerender_settled _ hsettled2 evs hevs, hstep]
    exact ⟨rfl, rfl⟩

theorem c8_witness :
    ((runEffects (initialPageState (some ⟨some "st1", some "High"⟩))).stationId = "st1" ∧
     (runEffects (initialPageState (some ⟨some "st1", some "High"⟩))).predictedDemand
       = "High") ∧
    (([PageEvent.rerender, PageEvent.rerender].foldl pageStep
        (pageStep
          (⟨"st1", "High",
            [⟨"st1", "Central", 0, 0, 5, "High"⟩, ⟨"st2", "North", 1, 1, 3, "Medium"⟩],
            some ⟨some "st1", some "High"⟩,
            some (some ⟨some "st1", some "High"⟩),
            some ("st1",
              [⟨"st1", "Central", 0, 0, 5, "High"⟩, ⟨"st2", "North", 1, 1, 3, "Medium"⟩])⟩ :
              PageState)
          (.selectStation "st2"))).stationId = "st2" ∧
     ([PageEvent.rerender, PageEvent.rerender].foldl pageStep
        (pageStep
          (⟨"st1", "High",
            [⟨"st1", "Central", 0, 0, 5, "High"⟩, ⟨"st2", "North", 1, 1, 3, "Medium"⟩],
            some ⟨some "st1", some "High"⟩,
            some (some ⟨some "st1", some "High"⟩),
            some ("st1",
              [⟨"st1", "Central", 0, 0, 5, "High"⟩, ⟨"st2", "North", 1, 1, 3, "Medium"⟩])⟩ :
              PageState)
          (.selectStation "st2"))).predictedDemand = "Medium") := by
  constructor
  · exact c8_handoff_one_shot.1 ⟨some "st1", some "High"⟩ "st1" "High" rfl (by decide) rfl
      (by decide)
  · have h := c8_handoff_one_shot.2
      (⟨"st1", "High",
        [⟨"st1", "Central", 0, 0, 5, "High"⟩, ⟨"st2", "North", 1, 1, 3, "Medium"⟩],
        some ⟨some "st1", some "High"⟩,
        some (some ⟨some "st1", some "High"⟩),
        some ("st1",
          [⟨"st1", "Central", 0, 0, 5, "High"⟩, ⟨"st2", "North", 1, 1, 3, "Medium"⟩])⟩ :
          PageState)
      "st2" ⟨"st2", "North", 1, 1, 3, "Medium"⟩
      (by constructor <;> rfl) (by decide) (by decide)
      [PageEvent.rerender, PageEvent.rerender] (by decide)
    exact ⟨h.1, h.2⟩
